import Mathlib

/-
Verification of `Gems/AWSCore/Code/Source/Editor/Attribution/AWSCoreAttributionManager.cpp`
(namespace `AWSCore`, class `AWSAttributionManager`).

The manager is embedded shallowly:
  * C++ strings are `List Char` (`CppString`).
  * The three settings-registry keys the manager reads and writes are modelled as a
    record of `Option` fields (`PreferencesRegistry`); `Option.none` is "key not found".
  * The clock reads (`AZStd::chrono::system_clock::now()` truncated to seconds) are
    explicit `Nat` parameters (`now` for `ShouldGenerateMetric`, `now2` for the
    `UpdateLastSend` callback); both are u64 second counts.
  * The asynchronous HTTP request job of `SubmitMetric` is modelled by a Boolean
    `httpSuccess` parameter: the success callback (which calls `UpdateLastSend`)
    runs exactly when it is `true`.
  * `AZ_Warning` calls are modelled by a `warnings : List String` field of the result.
-/

namespace AWSCore

/-- Characters of a C++ `AZStd::string`. -/
abbrev CppString := List Char

/-! ### Constants from the source file (lines 34-41) -/

def EditorAWSPreferencesFileName : CppString := "editor_aws_preferences.setreg".data

def AWSAttributionSettingsPrefixKey : CppString := "/Amazon/AWS/Preferences".data

def AWSAttributionEnabledKey : CppString :=
  "/Amazon/AWS/Preferences/AWSAttributionEnabled".data

def AWSAttributionDelaySecondsKey : CppString :=
  "/Amazon/AWS/Preferences/AWSAttributionDelaySeconds".data

def AWSAttributionLastTimeStampKey : CppString :=
  "/Amazon/AWS/Preferences/AWSAttributionLastTimeStamp".data

def AWSAttributionApiId : CppString := "xbzx78kvbk".data

def AWSAttributionChinaApiId : CppString := "".data

def AWSAttributionApiStage : CppString := "prod".data

/-- `Aws::Region::CN_NORTH_1`. -/
def CN_NORTH_1 : CppString := "cn-north-1".data

/-- `Aws::Region::CN_NORTHWEST_1`. -/
def CN_NORTHWEST_1 : CppString := "cn-northwest-1".data

/-- `Aws::Region::US_WEST_2`. -/
def US_WEST_2 : CppString := "us-west-2".data

/-! ### The preferences the manager reads from its settings registry -/

/-- The three keys of the `/Amazon/AWS/Preferences` subtree that
`AWSAttributionManager` reads and writes.  A `none` field models the key being
absent (`SettingsRegistry::Get` returning `false`).  `delaySeconds` and
`lastTimeStamp` hold u64 values. -/
structure PreferencesRegistry where
  enabled : Option Bool
  delaySeconds : Option Nat
  lastTimeStamp : Option Nat
deriving DecidableEq, Repr

/-- 2^64, the modulus of a C++ `uint64_t`. -/
def UINT64_MOD : Int := 2 ^ 64

/-- The comparison `secondsSinceLastSend.count() >= delayInSeconds` at line 122 of the
source compares a signed 64-bit count with an unsigned 64-bit delay; by the C++ usual
arithmetic conversions the signed operand is converted to `uint64_t`, i.e. taken
modulo 2^64. -/
def cppSignedGeUnsigned (s : Int) (u : Nat) : Bool :=
  decide (u ≤ (s % UINT64_MOD).toNat)

/-- Result of `ShouldGenerateMetric`: the returned Boolean, the state of the
member settings registry on return (line 109 may have written the default delay
back), and the `AZ_Warning` messages emitted. -/
structure SGMResult where
  decision : Bool
  registry : PreferencesRegistry
  warnings : List String
deriving DecidableEq, Repr

/-- Lines 112-127 of `ShouldGenerateMetric`: look up
`AWSAttributionLastTimeStamp`; if absent, this is the first attempt and the
function returns `true`; otherwise compare the seconds elapsed since the stored
timestamp (computed in signed 64-bit arithmetic) with the delay. -/
def attributionDelayCheck (reg : PreferencesRegistry) (delayInSeconds : Nat)
    (warns : List String) (now : Nat) : SGMResult :=
  match reg.lastTimeStamp with
  | none => { decision := true, registry := reg, warnings := warns }
  | some lastSendTimeStampSeconds =>
    let secondsSinceLastSend : Int := (now : Int) - (lastSendTimeStampSeconds : Int)
    { decision := cppSignedGeUnsigned secondsSinceLastSend delayInSeconds
      registry := reg
      warnings := warns }

/-- `AWSAttributionManager::ShouldGenerateMetric` (lines 71-128).
`resolveOk` is the result of `FileIOBase::ResolvePath` on the preferences file
path; on failure the function warns and returns `false` (lines 80-84).
`reg` is the state of the member settings registry after the optional
`MergeSettingsFile` of the existing preferences file (lines 86-89), i.e. what the
three `Get` calls observe.  `now` is the current system clock in seconds.
If the enabled key is absent the value defaults to `true` (lines 92-96); if the
delay key is absent the default 86400 is used and written back (lines 103-110). -/
def ShouldGenerateMetric (resolveOk : Bool) (reg : PreferencesRegistry) (now : Nat) :
    SGMResult :=
  if resolveOk = false then
    { decision := false, registry := reg, warnings := ["Error resolving path %s"] }
  else
    let awsAttributionEnabled : Bool := Option.getD reg.enabled true
    if awsAttributionEnabled = false then
      { decision := false, registry := reg, warnings := [] }
    else
      match reg.delaySeconds with
      | some delayInSeconds => attributionDelayCheck reg delayInSeconds [] now
      | none =>
        attributionDelayCheck { reg with delaySeconds := some 86400 } 86400
          ["AWSAttribution delay key not found. Defaulting to delay to day"] now

/-- `AWSAttributionManager::UpdateLastSend` (lines 175-184): set
`AWSAttributionLastTimeStamp` to the current time in seconds (`now2`) and save the
registry file.  (The settings-registry `Set` of a u64 value succeeds; the failure
branch at line 179 is unreachable in this model.) -/
def UpdateLastSend (reg : PreferencesRegistry) (now2 : Nat) : PreferencesRegistry :=
  { reg with lastTimeStamp := some now2 }

/-! ### The metric -/

/-- `AttributionMetric` as populated by `UpdateMetric`: engine version, platform
name, and the active gem names. -/
structure AttributionMetric where
  o3deVersion : CppString
  platform : CppString
  activeGems : List CppString
deriving DecidableEq, Repr

/-- Substring containment, the semantics of `AZStd::string::contains` used at
line 234 (`moduleEntityName.contains("AWS")`). -/
def hasSubstring (pat : CppString) : CppString → Bool
  | [] => decide (pat = [])
  | c :: rest => pat.isPrefixOf (c :: rest) || hasSubstring pat rest

/-- Index of the last occurrence of `c`, the semantics of
`AZStd::string::find_last_of` (with `none` for `npos`). -/
def findLastOf (c : Char) : CppString → Option Nat
  | [] => none
  | x :: xs =>
    match findLastOf c xs with
    | some i => some (i + 1)
    | none => if x = c then some 0 else none

/-- `name.substr(0, name.find_last_of("."))` at line 235: everything before the
last `'.'`, or the whole string when there is no `'.'` (`substr(0, npos)`). -/
def substrToLastOf (c : Char) (s : CppString) : CppString :=
  match findLastOf c s with
  | none => s
  | some i => s.take i

/-- `AWSAttributionManager::GetActiveAWSGems` (lines 226-238): enumerate the
active modules (`moduleNames` is the list of module entity names, in enumeration
order) and push back, for each name containing `"AWS"`, the name truncated at its
last `'.'`. -/
def GetActiveAWSGems (moduleNames : List CppString) : List CppString :=
  moduleNames.foldl
    (fun gems moduleEntityName =>
      if hasSubstring "AWS".data moduleEntityName then
        gems ++ [substrToLastOf '.' moduleEntityName]
      else gems)
    []

/-- `AWSAttributionManager::UpdateMetric` (lines 240-254): set the engine
version, the platform, and add every active AWS gem name. -/
def UpdateMetric (engineVersion platformName : CppString)
    (moduleNames : List CppString) : AttributionMetric :=
  { o3deVersion := engineVersion
    platform := platformName
    activeGems := GetActiveAWSGems moduleNames }

/-! ### Submitting and the periodic check -/

/-- Effect of `SubmitMetric`'s request job (lines 261-272) on the registry: the
success callback calls `UpdateLastSend`; on failure nothing runs. -/
def SubmitMetricEffect (reg : PreferencesRegistry) (httpSuccess : Bool) (now2 : Nat) :
    PreferencesRegistry :=
  if httpSuccess then UpdateLastSend reg now2 else reg

/-- Result of one `MetricCheck`: the registry afterwards and the metric that was
submitted, if any. -/
structure MetricCheckResult where
  registry : PreferencesRegistry
  submitted : Option AttributionMetric
deriving DecidableEq, Repr

/-- `AWSAttributionManager::MetricCheck` (lines 57-69): if `ShouldGenerateMetric`
returns `true`, assemble the metric with `UpdateMetric` and post it with
`SubmitMetric`; otherwise do nothing.  (`ShouldGenerateMetric` is evaluated once
in the source; the repeated applications below denote that single result.) -/
def MetricCheck (resolveOk : Bool) (reg : PreferencesRegistry) (now : Nat)
    (engineVersion platformName : CppString) (moduleNames : List CppString)
    (httpSuccess : Bool) (now2 : Nat) : MetricCheckResult :=
  if (ShouldGenerateMetric resolveOk reg now).decision then
    { registry :=
        SubmitMetricEffect (ShouldGenerateMetric resolveOk reg now).registry
          httpSuccess now2
      submitted := some (UpdateMetric engineVersion platformName moduleNames) }
  else
    { registry := (ShouldGenerateMetric resolveOk reg now).registry
      submitted := none }

/-! ### Endpoint configuration -/

/-- The fields of `AWSAttributionRequestJob::Config` that
`SetApiEndpointAndRegion` writes. -/
structure RequestJobConfig where
  region : CppString
  endpointOverride : CppString
deriving DecidableEq, Repr

/-- Modelled from the spec: `AWSResourceMappingUtils::FormatRESTApiUrl` lives in
`ResourceMapping/AWSResourceMappingUtils.cpp`, which is not among the sources;
the spec describes the endpoint as the REST API URL formed from an API id, a
region and a stage, modelled here as the API-Gateway URL shape built from those
three components. -/
def FormatRESTApiUrl (restApiId restApiRegion restApiStage : CppString) : CppString :=
  "https://".data ++ restApiId ++ ".execute-api.".data ++ restApiRegion
    ++ ".amazonaws.com/".data ++ restApiStage

/-- `AWSAttributionManager::SetApiEndpointAndRegion` (lines 186-203).
`profileRegion` is `clientConfig.region`, the region of the default AWS profile.
For a China profile region the config region is set to `CN_NORTH_1` and the
China API id selected, but line 200 then unconditionally overwrites the region
with `US_WEST_2` before the endpoint is formatted. -/
def SetApiEndpointAndRegion (profileRegion : CppString) (config : RequestJobConfig) :
    RequestJobConfig :=
  let apiId := AWSAttributionApiId
  let step1 :=
    if profileRegion = CN_NORTH_1 ∨ profileRegion = CN_NORTHWEST_1 then
      ({ config with region := CN_NORTH_1 }, AWSAttributionChinaApiId)
    else (config, apiId)
  let config2 := { step1.1 with region := US_WEST_2 }
  { config2 with
      endpointOverride := FormatRESTApiUrl step1.2 config2.region AWSAttributionApiStage }

/-! ### Saving the registry file -/

/-- A JSON value stored in the settings registry. -/
inductive SettingValue where
  | boolVal : Bool → SettingValue
  | u64Val : Nat → SettingValue
  | strVal : CppString → SettingValue
deriving DecidableEq, Repr

/-- A settings registry viewed as its entries: pairs of a JSON-pointer path and
a value. -/
abbrev RegistryEntries := List (CppString × SettingValue)

/-- Modelled from the spec: `AZ::SettingsRegistryMergeUtils::DumpSettingsRegistryToStream`
is engine code not among the sources; anchored at a JSON pointer (here both the
dump anchor and `dumperSettings.m_jsonPointerPrefix`, lines 145-150), it writes
exactly the registry subtree under that pointer, i.e. the entries whose path
extends it. -/
def DumpSettingsRegistryToStream (anchorKey : CppString) (entries : RegistryEntries) :
    RegistryEntries :=
  entries.filter (fun e => anchorKey.isPrefixOf e.1)

/-- `AWSAttributionManager::SaveSettingsRegistryFile` (lines 130-173): dump the
registry anchored at `/Amazon/AWS/Preferences` and write the result to the
preferences file.  The value is the file content written, as registry entries. -/
def SaveSettingsRegistryFile (entries : RegistryEntries) : RegistryEntries :=
  DumpSettingsRegistryToStream AWSAttributionSettingsPrefixKey entries

/-! ### Spec-side predicate for the send decision -/

/-- The spec's description of the send condition: the enabled preference permits
sending (the stored flag, defaulting to permit when absent) and either no
last-send timestamp is recorded or at least the configured delay (defaulting to
86400 seconds) has elapsed since it. -/
def sendPermittedSpec (reg : PreferencesRegistry) (now : Nat) : Prop :=
  Option.getD reg.enabled true = true ∧
    (reg.lastTimeStamp = none ∨
      ∃ old, reg.lastTimeStamp = some old ∧
        Option.getD reg.delaySeconds 86400 ≤ now - old)

/-! ### Helper lemmas -/

/-- When the stored timestamp is not in the future and the clock value fits in a
u64, the signed-to-unsigned C++ comparison agrees with the plain comparison of
the elapsed seconds against the delay. -/
theorem cppSignedGeUnsigned_eq_of_le {now old : Nat} (hle : old ≤ now)
    (hlt : now < 2 ^ 64) (d : Nat) :
    cppSignedGeUnsigned ((now : Int) - (old : Int)) d = decide (d ≤ now - old) := by
  have hmod : UINT64_MOD = 18446744073709551616 := by norm_num [UINT64_MOD]
  have hlt2 : now < 18446744073709551616 := by
    calc now < 2 ^ 64 := hlt
    _ = 18446744073709551616 := by norm_num
  have h1 : (now : Int) - (old : Int) = ((now - old : Nat) : Int) := by omega
  have h2 : (((now - old : Nat) : Int)) % UINT64_MOD = ((now - old : Nat) : Int) := by
    rw [hmod]
    apply Int.emod_eq_of_lt <;> omega
  unfold cppSignedGeUnsigned
  rw [h1, h2]
  simp

/-- `ShouldGenerateMetric` never changes the stored last-send timestamp (it only
ever writes the delay key back). -/
theorem SGM_registry_lastTimeStamp (resolveOk : Bool) (reg : PreferencesRegistry)
    (now : Nat) :
    (ShouldGenerateMetric resolveOk reg now).registry.lastTimeStamp
      = reg.lastTimeStamp := by
  obtain ⟨en, del, ts⟩ := reg
  rcases resolveOk with _ | _ <;> rcases en with _ | (_ | _) <;>
    rcases del with _ | d <;> rcases ts with _ | t <;>
      simp [ShouldGenerateMetric, attributionDelayCheck]

/-- Characterisation of the `ShouldGenerateMetric` decision against the
spec-side predicate, when the path resolves, the clock fits in a u64 and the
recorded timestamp is not in the future. -/
theorem SGM_decision_char (reg : PreferencesRegistry) (now : Nat)
    (hlt : now < 2 ^ 64) (hts : ∀ old, reg.lastTimeStamp = some old → old ≤ now) :
    ((ShouldGenerateMetric true reg now).decision = true ↔ sendPermittedSpec reg now) := by
  obtain ⟨en, del, ts⟩ := reg
  rcases ts with _ | old
  · rcases en with _ | b
    · rcases del with _ | d <;>
        simp [ShouldGenerateMetric, attributionDelayCheck, sendPermittedSpec]
    · cases b <;> rcases del with _ | d <;>
        simp [ShouldGenerateMetric, attributionDelayCheck, sendPermittedSpec]
  · have hle : old ≤ now := hts old rfl
    rcases en with _ | b
    · rcases del with _ | d <;>
        simp [ShouldGenerateMetric, attributionDelayCheck, sendPermittedSpec,
          cppSignedGeUnsigned_eq_of_le hle hlt]
    · cases b <;> rcases del with _ | d <;>
        simp [ShouldGenerateMetric, attributionDelayCheck, sendPermittedSpec,
          cppSignedGeUnsigned_eq_of_le hle hlt]

/-- A `foldl` that conditionally pushes back a transformed element is a
filter-then-map appended to the accumulator. -/
theorem foldl_pushback_eq {α β : Type} (p : α → Bool) (f : α → β) :
    ∀ (l : List α) (init : List β),
      l.foldl (fun acc x => if p x then acc ++ [f x] else acc) init
        = init ++ (l.filter p).map f
  | [], init => by simp
  | x :: xs, init => by
    cases hp : p x <;>
      simp [List.filter_cons, hp, foldl_pushback_eq p f xs]

/-! ### Claim theorems -/

/-- C1: `MetricCheck` assembles (with `UpdateMetric`) and submits a metric
exactly when `ShouldGenerateMetric` returns `true`; and when the preferences
path resolves, the clock fits in a u64 and the recorded timestamp is not in the
future, `ShouldGenerateMetric` returns `true` iff the `AWSAttributionEnabled`
preference permits sending and either no last-send timestamp is recorded or the
seconds elapsed since it are at least the configured delay. -/
theorem metricCheck_submits_iff_shouldGenerateMetric
    (resolveOk : Bool) (reg : PreferencesRegistry) (now now2 : Nat)
    (engineVersion platformName : CppString) (moduleNames : List CppString)
    (httpSuccess : Bool) :
    ((MetricCheck resolveOk reg now engineVersion platformName moduleNames
        httpSuccess now2).submitted
      = if (ShouldGenerateMetric resolveOk reg now).decision then
          some (UpdateMetric engineVersion platformName moduleNames)
        else none)
    ∧ (resolveOk = true → now < 2 ^ 64 →
        (∀ old, reg.lastTimeStamp = some old → old ≤ now) →
        ((ShouldGenerateMetric resolveOk reg now).decision = true
          ↔ sendPermittedSpec reg now)) := by
  constructor
  · unfold MetricCheck
    cases hd : (ShouldGenerateMetric resolveOk reg now).decision <;> simp [hd]
  · rintro rfl hlt hts
    exact SGM_decision_char reg now hlt hts

/-- C1 witness: the theorem instantiated at a concrete state (enabled, delay 10,
last send at 5, now 100). -/
theorem metricCheck_submits_iff_shouldGenerateMetric_witness :
    (((MetricCheck true ⟨some true, some 10, some 5⟩ 100 "2111.1".data "Windows".data
        [] true 200).submitted
      = if (ShouldGenerateMetric true ⟨some true, some 10, some 5⟩ 100).decision then
          some (UpdateMetric "2111.1".data "Windows".data [])
        else none)
    ∧ ((ShouldGenerateMetric true ⟨some true, some 10, some 5⟩ 100).decision = true
        ↔ sendPermittedSpec ⟨some true, some 10, some 5⟩ 100)) := by
  have h := metricCheck_submits_iff_shouldGenerateMetric true
    ⟨some true, some 10, some 5⟩ 100 200 "2111.1".data "Windows".data [] true
  refine ⟨h.1, h.2 rfl (by norm_num) ?_⟩
  intro old hOld
  simp only [Option.some.injEq] at hOld
  omega

/-- C2 counterexample: with the `AWSAttributionEnabled` key absent (and no
recorded timestamp), `ShouldGenerateMetric` returns `true`, so a metric IS sent;
the claim that an absent flag yields `false` is refuted. -/
theorem shouldGenerateMetric_enabled_absent_counterexample :
    (ShouldGenerateMetric true ⟨none, some 86400, none⟩ 0).decision = true := by
  decide

/-- C2 (amended): when the `AWSAttributionEnabled` flag is absent the manager
defaults it to `true` (the comment at line 94 reads "If not found default to
sending the metric") and decides exactly as if the flag were set to `true`;
a metric is sent only when the user has not affirmatively disabled attribution:
with the flag stored as `false`, `ShouldGenerateMetric` returns `false` and
`MetricCheck` submits nothing. -/
theorem shouldGenerateMetric_default_is_enabled
    (resolveOk : Bool) (reg : PreferencesRegistry) (now now2 : Nat)
    (engineVersion platformName : CppString) (moduleNames : List CppString)
    (httpSuccess : Bool) :
    ((ShouldGenerateMetric true { reg with enabled := none } now).decision
        = (ShouldGenerateMetric true { reg with enabled := some true } now).decision)
    ∧ ((ShouldGenerateMetric resolveOk { reg with enabled := some false } now).decision
        = false)
    ∧ ((MetricCheck resolveOk { reg with enabled := some false } now engineVersion
        platformName moduleNames httpSuccess now2).submitted = none) := by
  obtain ⟨en, del, ts⟩ := reg
  refine ⟨?_, ?_, ?_⟩
  · rcases del with _ | d <;> rcases ts with _ | t <;>
      simp [ShouldGenerateMetric, attributionDelayCheck]
  · rcases resolveOk with _ | _ <;> simp [ShouldGenerateMetric]
  · rcases resolveOk with _ | _ <;>
      simp [MetricCheck, ShouldGenerateMetric]

/-- C6: when resolving the path to `editor_aws_preferences.setreg` fails,
`ShouldGenerateMetric` emits a warning and returns `false`; the registry is left
unchanged, and `MetricCheck` submits no metric and performs no other action. -/
theorem shouldGenerateMetric_resolve_failure
    (reg : PreferencesRegistry) (now now2 : Nat)
    (engineVersion platformName : CppString) (moduleNames : List CppString)
    (httpSuccess : Bool) :
    ((ShouldGenerateMetric false reg now).decision = false)
    ∧ ((ShouldGenerateMetric false reg now).warnings ≠ [])
    ∧ ((ShouldGenerateMetric false reg now).registry = reg)
    ∧ ((MetricCheck false reg now engineVersion platformName moduleNames
        httpSuccess now2).submitted = none)
    ∧ ((MetricCheck false reg now engineVersion platformName moduleNames
        httpSuccess now2).registry = reg) := by
  refine ⟨rfl, by simp [ShouldGenerateMetric], rfl, ?_, ?_⟩ <;>
    simp [MetricCheck, ShouldGenerateMetric]

/-- C8: when the `AWSAttributionDelaySeconds` key is absent (and attribution is
not disabled, so the lookup is reached), `ShouldGenerateMetric` writes the
default 86400 back into the settings registry under that key and decides exactly
as it would with the delay configured to 86400. -/
theorem shouldGenerateMetric_default_delay
    (reg : PreferencesRegistry) (now : Nat)
    (hEn : Option.getD reg.enabled true = true) :
    ((ShouldGenerateMetric true { reg with delaySeconds := none } now).registry.delaySeconds
        = some 86400)
    ∧ ((ShouldGenerateMetric true { reg with delaySeconds := none } now).decision
        = (ShouldGenerateMetric true { reg with delaySeconds := some 86400 } now).decision) := by
  obtain ⟨en, del, ts⟩ := reg
  simp only at hEn
  rcases ts with _ | t <;>
    simp [ShouldGenerateMetric, attributionDelayCheck, hEn]

/-- C8 witness: the theorem at the state with the delay key absent, enabled set,
no timestamp. -/
theorem shouldGenerateMetric_default_delay_witness :
    ((ShouldGenerateMetric true ⟨some true, none, none⟩ 0).registry.delaySeconds
        = some 86400)
    ∧ ((ShouldGenerateMetric true ⟨some true, none, none⟩ 0).decision
        = (ShouldGenerateMetric true ⟨some true, some 86400, none⟩ 0).decision) :=
  shouldGenerateMetric_default_delay ⟨some true, none, none⟩ 0 rfl

/-- C9: when attribution is enabled (or the enabled key absent, which defaults
to enabled) and no `AWSAttributionLastTimeStamp` is recorded,
`ShouldGenerateMetric` returns `true` regardless of the delay value: the first
send is attempted immediately. -/
theorem shouldGenerateMetric_first_send
    (reg : PreferencesRegistry) (now : Nat)
    (hEn : Option.getD reg.enabled true = true)
    (hTs : reg.lastTimeStamp = none) :
    (ShouldGenerateMetric true reg now).decision = true := by
  obtain ⟨en, del, ts⟩ := reg
  simp only at hEn hTs
  subst hTs
  rcases del with _ | d <;>
    simp [ShouldGenerateMetric, attributionDelayCheck, hEn]

/-- C9 witness: enabled-key absent, a huge configured delay, no timestamp: the
decision is `true`. -/
theorem shouldGenerateMetric_first_send_witness :
    (ShouldGenerateMetric true ⟨none, some 99999999999, none⟩ 7).decision = true :=
  shouldGenerateMetric_first_send ⟨none, some 99999999999, none⟩ 7 rfl rfl

/-- C3: over one `MetricCheck`, the stored `AWSAttributionLastTimeStamp` changes
only when the send happened and the request job's success callback ran
`UpdateLastSend`; each such update stores the current time `now2`, a value at
least the previous timestamp when that timestamp is not in the future; on a
skipped or failed send the timestamp is unchanged. -/
theorem metricCheck_lastTimeStamp_invariant
    (resolveOk : Bool) (reg : PreferencesRegistry) (now now2 : Nat)
    (engineVersion platformName : CppString) (moduleNames : List CppString)
    (httpSuccess : Bool) :
    ((MetricCheck resolveOk reg now engineVersion platformName moduleNames
          httpSuccess now2).registry.lastTimeStamp ≠ reg.lastTimeStamp →
        (ShouldGenerateMetric resolveOk reg now).decision = true ∧ httpSuccess = true)
    ∧ ((ShouldGenerateMetric resolveOk reg now).decision = true → httpSuccess = true →
        (MetricCheck resolveOk reg now engineVersion platformName moduleNames
          httpSuccess now2).registry.lastTimeStamp = some now2)
    ∧ ((ShouldGenerateMetric resolveOk reg now).decision = false ∨ httpSuccess = false →
        (MetricCheck resolveOk reg now engineVersion platformName moduleNames
          httpSuccess now2).registry.lastTimeStamp = reg.lastTimeStamp)
    ∧ (∀ old, reg.lastTimeStamp = some old → old ≤ now2 →
        (ShouldGenerateMetric resolveOk reg now).decision = true → httpSuccess = true →
        ∃ newTs,
          (MetricCheck resolveOk reg now engineVersion platformName moduleNames
            httpSuccess now2).registry.lastTimeStamp = some newTs ∧ old ≤ newTs) := by
  have hts := SGM_registry_lastTimeStamp resolveOk reg now
  unfold MetricCheck
  cases hd : (ShouldGenerateMetric resolveOk reg now).decision <;>
    cases httpSuccess <;>
      simp [hd, SubmitMetricEffect, UpdateLastSend, hts]

/-- C3 witness: enabled, delay 0, last send at 5, now 100, successful HTTP send
at time 200: the timestamp becomes 200 ≥ 5. -/
theorem metricCheck_lastTimeStamp_invariant_witness :
    ∃ newTs,
      (MetricCheck true ⟨some true, some 0, some 5⟩ 100 [] [] [] true
        200).registry.lastTimeStamp = some newTs ∧ 5 ≤ newTs := by
  have h := metricCheck_lastTimeStamp_invariant true ⟨some true, some 0, some 5⟩
    100 200 [] [] [] true
  exact h.2.2.2 5 rfl (by omega) (by decide) rfl

/-- C4 counterexample: when the default AWS profile region is `cn-north-1`, the
endpoint is formed from the (empty) China API id, not from `"xbzx78kvbk"`; so
`SetApiEndpointAndRegion` does not produce the same `endpointOverride` for every
profile configuration. -/
theorem setApiEndpointAndRegion_china_counterexample :
    (SetApiEndpointAndRegion CN_NORTH_1 ⟨[], []⟩).endpointOverride
      ≠ FormatRESTApiUrl AWSAttributionApiId US_WEST_2 AWSAttributionApiStage := by
  decide

/-- C4 (amended): for every client configuration whose default profile region is
not a China region, `SetApiEndpointAndRegion` produces the same
`endpointOverride`: the REST API URL formed from API id `"xbzx78kvbk"`, region
`us-west-2` and stage `"prod"`; for China profile regions the endpoint is
instead formed from the empty China API id (and the same region and stage). -/
theorem setApiEndpointAndRegion_endpoint
    (profileRegion : CppString) (config : RequestJobConfig)
    (h1 : profileRegion ≠ CN_NORTH_1) (h2 : profileRegion ≠ CN_NORTHWEST_1) :
    ((SetApiEndpointAndRegion profileRegion config).endpointOverride
        = FormatRESTApiUrl AWSAttributionApiId US_WEST_2 AWSAttributionApiStage)
    ∧ (∀ cfg2 : RequestJobConfig,
        ((SetApiEndpointAndRegion CN_NORTH_1 cfg2).endpointOverride
          = FormatRESTApiUrl AWSAttributionChinaApiId US_WEST_2 AWSAttributionApiStage)
        ∧ ((SetApiEndpointAndRegion CN_NORTHWEST_1 cfg2).endpointOverride
          = FormatRESTApiUrl AWSAttributionChinaApiId US_WEST_2 AWSAttributionApiStage)) := by
  constructor
  · simp [SetApiEndpointAndRegion, h1, h2]
  · intro cfg2
    constructor <;> simp [SetApiEndpointAndRegion]

/-- C4 witness: the theorem at the `us-east-1` profile region. -/
theorem setApiEndpointAndRegion_endpoint_witness :
    ((SetApiEndpointAndRegion "us-east-1".data ⟨[], []⟩).endpointOverride
        = FormatRESTApiUrl AWSAttributionApiId US_WEST_2 AWSAttributionApiStage)
    ∧ (∀ cfg2 : RequestJobConfig,
        ((SetApiEndpointAndRegion CN_NORTH_1 cfg2).endpointOverride
          = FormatRESTApiUrl AWSAttributionChinaApiId US_WEST_2 AWSAttributionApiStage)
        ∧ ((SetApiEndpointAndRegion CN_NORTHWEST_1 cfg2).endpointOverride
          = FormatRESTApiUrl AWSAttributionChinaApiId US_WEST_2 AWSAttributionApiStage)) :=
  setApiEndpointAndRegion_endpoint "us-east-1".data ⟨[], []⟩ (by decide) (by decide)

/-- C5 counterexample: the module entity name `"MyAWSGem.dll"` does not start
with `"AWS"`, yet `GetActiveAWSGems` includes it (truncated at the last `'.'`):
membership is not decided by a prefix match. -/
theorem getActiveAWSGems_not_prefix_counterexample :
    (GetActiveAWSGems ["MyAWSGem.dll".data] = ["MyAWSGem".data])
    ∧ (List.isPrefixOf "AWS".data "MyAWSGem.dll".data = false) := by
  constructor <;> decide

/-- C5 (amended): the metric's active gem name list contains exactly the names
of enumerated active modules that contain `"AWS"` as a substring anywhere in the
module entity name (not only as a prefix), each with any trailing extension
after the final `'.'` removed. -/
theorem getActiveAWSGems_characterization
    (moduleNames : List CppString) (g : CppString) :
    g ∈ GetActiveAWSGems moduleNames ↔
      ∃ m, m ∈ moduleNames ∧ hasSubstring "AWS".data m = true
        ∧ g = substrToLastOf '.' m := by
  unfold GetActiveAWSGems
  rw [foldl_pushback_eq]
  simp only [List.nil_append, List.mem_map, List.mem_filter]
  constructor
  · rintro ⟨m, ⟨hm, hp⟩, he⟩
    exact ⟨m, hm, hp, he.symm⟩
  · rintro ⟨m, hm, hp, he⟩
    exact ⟨m, ⟨hm, hp⟩, he.symm⟩

/-- C5 (amended) witness: the characterisation at the singleton module list
`["MyAWSGem.dll"]` and the gem name `"MyAWSGem"`. -/
theorem getActiveAWSGems_characterization_witness :
    "MyAWSGem".data ∈ GetActiveAWSGems ["MyAWSGem.dll".data] ↔
      ∃ m, m ∈ ["MyAWSGem.dll".data] ∧ hasSubstring "AWS".data m = true
        ∧ "MyAWSGem".data = substrToLastOf '.' m :=
  getActiveAWSGems_characterization ["MyAWSGem.dll".data] "MyAWSGem".data

/-- C7: `SaveSettingsRegistryFile` writes to the preferences file exactly the
registry entries whose path lies under the `/Amazon/AWS/Preferences` prefix
(which includes the enabled, delay and last-timestamp keys) and nothing
outside that prefix. -/
theorem saveSettingsRegistryFile_frame
    (entries : RegistryEntries) (e : CppString × SettingValue) :
    (e ∈ SaveSettingsRegistryFile entries ↔
      e ∈ entries ∧ List.isPrefixOf AWSAttributionSettingsPrefixKey e.1 = true)
    ∧ (List.isPrefixOf AWSAttributionSettingsPrefixKey AWSAttributionEnabledKey = true)
    ∧ (List.isPrefixOf AWSAttributionSettingsPrefixKey AWSAttributionDelaySecondsKey = true)
    ∧ (List.isPrefixOf AWSAttributionSettingsPrefixKey AWSAttributionLastTimeStampKey = true) := by
  refine ⟨?_, by decide, by decide, by decide⟩
  simp [SaveSettingsRegistryFile, DumpSettingsRegistryToStream, List.mem_filter]

/-- C7 witness: a registry holding the enabled key and an unrelated key; the
frame property instantiated at the enabled entry. -/
theorem saveSettingsRegistryFile_frame_witness :
    ((AWSAttributionEnabledKey, SettingValue.boolVal true) ∈
        SaveSettingsRegistryFile
          [(AWSAttributionEnabledKey, SettingValue.boolVal true),
           ("/Other/Key".data, SettingValue.u64Val 1)] ↔
      (AWSAttributionEnabledKey, SettingValue.boolVal true) ∈
          [(AWSAttributionEnabledKey, SettingValue.boolVal true),
           ("/Other/Key".data, SettingValue.u64Val 1)]
        ∧ List.isPrefixOf AWSAttributionSettingsPrefixKey
            (AWSAttributionEnabledKey, SettingValue.boolVal true).1 = true)
    ∧ (List.isPrefixOf AWSAttributionSettingsPrefixKey AWSAttributionEnabledKey = true)
    ∧ (List.isPrefixOf AWSAttributionSettingsPrefixKey AWSAttributionDelaySecondsKey = true)
    ∧ (List.isPrefixOf AWSAttributionSettingsPrefixKey AWSAttributionLastTimeStampKey = true) :=
  saveSettingsRegistryFile_frame
    [(AWSAttributionEnabledKey, SettingValue.boolVal true),
     ("/Other/Key".data, SettingValue.u64Val 1)]
    (AWSAttributionEnabledKey, SettingValue.boolVal true)

/-- C10: after `SetApiEndpointAndRegion` the config region is `us-west-2` for
every profile region, including the China regions `cn-north-1` and
`cn-northwest-1` (the China region assignment at line 196 is unconditionally
overwritten at line 200), while for a China profile the endpoint is still formed
from the (empty) China API id. -/
theorem setApiEndpointAndRegion_region_always_us_west_2
    (profileRegion : CppString) (config : RequestJobConfig) :
    ((SetApiEndpointAndRegion profileRegion config).region = US_WEST_2)
    ∧ ((SetApiEndpointAndRegion CN_NORTH_1 config).region = US_WEST_2)
    ∧ ((SetApiEndpointAndRegion CN_NORTHWEST_1 config).region = US_WEST_2)
    ∧ ((SetApiEndpointAndRegion CN_NORTH_1 config).endpointOverride
        = FormatRESTApiUrl AWSAttributionChinaApiId US_WEST_2 AWSAttributionApiStage) := by
  refine ⟨?_, by simp [SetApiEndpointAndRegion], by simp [SetApiEndpointAndRegion],
    by simp [SetApiEndpointAndRegion]⟩
  unfold SetApiEndpointAndRegion
  split <;> rfl

end AWSCore
